import Mathlib

/-!
# Verification of the bibliography-cleaning batch script

Shallow embedding of the Python script (`parse_bib_file` / `print_entry_info`
/ `generate_bibtex` / `save_all_updates` / `main`) that validates bibtex
records against per-type required-field rules, renders a canonical rewrite,
and logs every record to an audit spreadsheet.

The parser and spreadsheet backends are external collaborators; records are
modelled as already-parsed field maps, and the audit/output writes as data in
an explicit run-result structure.

Strings are modelled by Lean `String` (a list of unicode characters, matching
Python `str` character semantics).  Case folding and the regex character
classes `\s` and `\d` are modelled over their ASCII meaning, which is what the
script's data exercises.
-/

namespace ZeroPrism

/-- A parsed bibtex record: the `ENTRYTYPE` tag, the optional `ID` key, and
the remaining field map (a Python dict, so keys are unique; lookup is by
key).  Mirrors the dict produced by the external parser. -/
structure Entry where
  entrytype : String
  id : Option String
  fields : List (String × String)
deriving Repr, DecidableEq

/-- `entry.get(field)`: dictionary lookup in the field map. -/
def getField (e : Entry) (k : String) : Option String :=
  (e.fields.find? (fun kv => kv.1 == k)).map (fun kv => kv.2)

/-- `str.lower()` (ASCII case folding, as exercised by the data). -/
def pyLower (s : String) : String :=
  ⟨s.data.map Char.toLower⟩

/-- Contiguous-sublist containment on character lists. -/
def infixOf (sub : List Char) : List Char → Bool
  | [] => sub.isEmpty
  | c :: rest => sub.isPrefixOf (c :: rest) || infixOf sub rest

/-- Python `sub in hay` substring containment. -/
def pyIn (sub hay : String) : Bool :=
  infixOf sub.data hay.data

/-- `''.join` / string accumulation over a list. -/
def concatAll : List String → String
  | [] => ""
  | s :: rest => s ++ concatAll rest

/-- `sep.join(l)`: Python string join with separator. -/
def pyJoin (sep : String) : List String → String
  | [] => ""
  | [s] => s
  | s :: rest => s ++ sep ++ pyJoin sep rest

/-- `f"{field:<10}"`: left-justify to width 10 with spaces (no truncation). -/
def ljust (s : String) (w : Nat) : String :=
  s ++ ⟨List.replicate (w - s.length) ' '⟩

/-- Trailing characters stripped by `.rstrip(',\n')`. -/
def stripChar (c : Char) : Bool :=
  c == ',' || c == '\n'

/-- `s.rstrip(',\n')` on character lists. -/
def rstripList (l : List Char) : List Char :=
  (l.reverse.dropWhile stripChar).reverse

/-- `s.rstrip(',\n')`. -/
def pyRstrip (s : String) : String :=
  ⟨rstripList s.data⟩

/-! ## The two regular expressions, as executable matchers

`re.match(p, s)` is truthy iff `p` matches a prefix of `s` starting at
position 0; a final `$` matches at the end of the string or just before a
terminating newline.  `.` does not match a newline; `[^)]` matches any
character except `)` (including newlines). -/

/-- `[^)]*\)` against an entire character list: the list contains exactly one
`)` and it is the last character. -/
def closeParen : List Char → Bool
  | [] => false
  | c :: rest => if c == ')' then rest.isEmpty else closeParen rest

/-- `.*\([^)]*\)` against an entire character list. -/
def dotStarParen : List Char → Bool
  | [] => false
  | c :: rest => (c == '(' && closeParen rest) || (c != '\n' && dotStarParen rest)

/-- Wrap a whole-list matcher with the semantics of a final `$`: it may also
succeed just before one trailing newline. -/
def pyDollar (core : List Char → Bool) (l : List Char) : Bool :=
  core l || (match l.getLast? with
    | some c => c == '\n' && core l.dropLast
    | none => false)

/-- Python's `\s` over ASCII. -/
def pySpace (c : Char) : Bool :=
  c == ' ' || c == '\t' || c == '\n' || c == '\r' || c == '\x0b' || c == '\x0c'

/-- `\d+\.\d+` against an entire character list. -/
def arxNum (l : List Char) : Bool :=
  let ds := l.takeWhile (fun c => c.isDigit)
  let rest := l.dropWhile (fun c => c.isDigit)
  !ds.isEmpty && (match rest with
    | '.' :: frac => !frac.isEmpty && frac.all (fun c => c.isDigit)
    | _ => false)

/-- `arXiv preprint arXiv:\s*\d+\.\d+` against an entire character list. -/
def arxivCore (l : List Char) : Bool :=
  "arXiv preprint arXiv:".data.isPrefixOf l
    && arxNum ((l.drop 21).dropWhile pySpace)

/-- The format constraints declared by the rules:
`r'.*\([^)]*\)$'` and `r'^arXiv preprint arXiv:\s*\d+\.\d+$'`. -/
inductive FormatCheck where
  | parenSuffix
  | arxiv
deriving Repr, DecidableEq

/-- `re.match(pattern, s)` truthiness for the two patterns. -/
def FormatCheck.eval : FormatCheck → String → Bool
  | .parenSuffix, s => pyDollar dotStarParen s.data
  | .arxiv, s => pyDollar arxivCore s.data

/-! ## `generate_bibtex` (the inner worker of `print_entry_info`) -/

/-- `bib_dict[field] = entry.get(field, "null")`: the canonical value, with
the literal placeholder `null` only when the key is entirely absent. -/
def bibValue (e : Entry) (f : String) : String :=
  (getField e f).getD "null"

/-- `[field for field in required_fields if not entry.get(field)]`: the
required fields whose value is absent or empty (Python falsy). -/
def missingFields (e : Entry) (fs : List String) : List String :=
  fs.filter (fun f => ((getField e f).getD "").isEmpty)

/-- `required_fields[0]`, the field the format check is applied to (the
source only ever calls `generate_bibtex` with a non-empty field list). -/
def checkedField (fs : List String) : String :=
  fs.headD ""

/-- The `record` string computed by `generate_bibtex`: missing-field error
first; else the format check, applied to `bib_dict[required_fields[0]]`;
else `"ok"`. -/
def genRecord (e : Entry) (fs : List String) (fc : Option FormatCheck) : String :=
  if missingFields e fs ≠ [] then
    "error: 缺失字段: " ++ pyJoin ", " (missingFields e fs)
  else match fc with
    | some c =>
        if c.eval (bibValue e (checkedField fs)) then "ok"
        else "warning: " ++ checkedField fs ++ "格式错误"
    | none => "ok"

/-- One rendered field line without its trailing separator:
`"\t{field:<10} = {{{bib_dict[field]}}}"`. -/
def fieldCore (e : Entry) (f : String) : String :=
  "\t" ++ ljust f 10 ++ " = \x7b" ++ bibValue e f ++ "\x7d"

/-- One rendered field line `"\t{field:<10} = {{{bib_dict[field]}}},\n"`. -/
def fieldLine (e : Entry) (f : String) : String :=
  "\t" ++ ljust f 10 ++ " = \x7b" ++ bibValue e f ++ "\x7d" ++ ",\n"

/-- The `update_entry` string computed by `generate_bibtex`: header, one line
per required field, then `.rstrip(',\n') + "\n}"`. -/
def genUpdate (e : Entry) (ty : String) (fs : List String) : String :=
  pyRstrip ("@" ++ ty ++ "\x7b" ++ e.id.getD "unnamed" ++ ",\n"
      ++ concatAll (fs.map (fieldLine e)))
    ++ "\n\x7d"

/-- `generate_bibtex(entry_type, required_fields, format_check)`, returning
the `(record, update_entry)` pair it assigns through `nonlocal`. -/
def generate_bibtex (e : Entry) (ty : String) (fs : List String)
    (fc : Option FormatCheck) : String × String :=
  (genRecord e fs fc, genUpdate e ty fs)

/-! ## `print_entry_info` -/

/-- Insertion sort by key, modelling `sorted(entry.items())` (keys are
unique, so sorting pairs by first component agrees with sorting tuples). -/
def insertByKey (x : String × String) : List (String × String) → List (String × String)
  | [] => [x]
  | y :: ys => if x.1 ≤ y.1 then x :: y :: ys else y :: insertByKey x ys

/-- `sorted(entry.items())` restricted to the non-`ENTRYTYPE`/`ID` fields. -/
def sortFields (l : List (String × String)) : List (String × String) :=
  l.foldr insertByKey []

/-- The `original_entry` rendering built at the top of `print_entry_info`. -/
def originalRender (e : Entry) : String :=
  pyRstrip ("@" ++ e.entrytype ++ "\x7b" ++ e.id.getD "unnamed" ++ ",\n"
      ++ concatAll ((sortFields e.fields).map
          (fun kv => "\t" ++ ljust kv.1 10 ++ " = \x7b" ++ kv.2 ++ "\x7d" ++ ",\n")))
    ++ "\n\x7d"

/-- `'journal' in entry and 'arxiv' in entry['journal'].lower()`. -/
def arxivBranch (e : Entry) : Bool :=
  (getField e "journal").isSome && pyIn "arxiv" (pyLower ((getField e "journal").getD ""))

/-- `print_entry_info(entry)`: the `(record, update_entry, original_entry)`
triple, transcribing the type-dispatch chain of the source. -/
def print_entry_info (e : Entry) : String × String × String :=
  if pyLower e.entrytype = "article" then
    (if arxivBranch e then
      ((generate_bibtex e "article" ["title", "author", "year", "journal"]
          (some .arxiv)).1,
        (generate_bibtex e "article" ["title", "author", "year", "journal"]
          (some .arxiv)).2,
        originalRender e)
    else
      ((generate_bibtex e "article"
          ["title", "author", "journal", "volume", "number", "pages", "year"]
          (some .parenSuffix)).1,
        (generate_bibtex e "article"
          ["title", "author", "journal", "volume", "number", "pages", "year"]
          (some .parenSuffix)).2,
        originalRender e))
  else if pyLower e.entrytype = "inproceedings" then
    ((generate_bibtex e "inproceedings"
        ["title", "author", "booktitle", "year", "pages"] (some .parenSuffix)).1,
      (generate_bibtex e "inproceedings"
        ["title", "author", "booktitle", "year", "pages"] (some .parenSuffix)).2,
      originalRender e)
  else if pyLower e.entrytype = "misc" ∨ pyLower e.entrytype = "www" then
    ((if (generate_bibtex e "www" ["author", "year", "title", "url"] none).1 = "ok"
        then "warning: misc改www"
        else (generate_bibtex e "www" ["author", "year", "title", "url"] none).1),
      (generate_bibtex e "www" ["author", "year", "title", "url"] none).2,
      originalRender e)
  else if pyLower e.entrytype = "book" then
    ((generate_bibtex e "book"
        ["author", "title", "publisher", "year", "address", "edition"] none).1,
      (generate_bibtex e "book"
        ["author", "title", "publisher", "year", "address", "edition"] none).2,
      originalRender e)
  else if pyLower e.entrytype = "techreport" then
    ((generate_bibtex e "techreport"
        ["author", "title", "institution", "year", "address"] none).1,
      (generate_bibtex e "techreport"
        ["author", "title", "institution", "year", "address"] none).2,
      originalRender e)
  else
    ("error: 未定义bibtex类型", "", originalRender e)

/-! ## The schema registry view of the dispatch

`selectRule` restates the dispatch chain as a pure lookup from a record to
its (output type tag, required-field list, optional format constraint);
`print_entry_info` is proved to factor through it below. -/

/-- The rule selected for a record: output type tag, ordered required fields,
optional format constraint; `none` for unknown type tags. -/
def selectRule (e : Entry) : Option (String × List String × Option FormatCheck) :=
  if pyLower e.entrytype = "article" then
    (if arxivBranch e then
      some ("article", ["title", "author", "year", "journal"], some .arxiv)
    else
      some ("article",
        ["title", "author", "journal", "volume", "number", "pages", "year"],
        some .parenSuffix))
  else if pyLower e.entrytype = "inproceedings" then
    some ("inproceedings", ["title", "author", "booktitle", "year", "pages"],
      some .parenSuffix)
  else if pyLower e.entrytype = "misc" ∨ pyLower e.entrytype = "www" then
    some ("www", ["author", "year", "title", "url"], none)
  else if pyLower e.entrytype = "book" then
    some ("book", ["author", "title", "publisher", "year", "address", "edition"], none)
  else if pyLower e.entrytype = "techreport" then
    some ("techreport", ["author", "title", "institution", "year", "address"], none)
  else
    none

/-- The `misc`/`www` demotion applied to an otherwise-`ok` record string. -/
def demoteIf (e : Entry) (r : String) : String :=
  if (pyLower e.entrytype = "misc" ∨ pyLower e.entrytype = "www") ∧ r = "ok" then
    "warning: misc改www"
  else r

/-! ## `save_all_updates` and `main` -/

/-- What one entry contributes to the consolidated output file: its
`update_entry` followed by a blank-line separator when non-empty (the
`if update_entry:` guard), nothing otherwise. -/
def updContribution (e : Entry) : String :=
  if (print_entry_info e).2.1 ≠ "" then (print_entry_info e).2.1 ++ "\n\n" else ""

/-- `save_all_updates(entries)`: the full text written to
`updated_references.bib`. -/
def save_all_updates (entries : List Entry) : String :=
  concatAll (entries.map updContribution)

/-- The observable effects of one `main()` run: whether the pre-existing
audit spreadsheet was deleted, the console messages, the audit rows appended
via `save_to_excel` (columns Original, Updated, Record, in input order), and
the consolidated output file content (`none` when never written). -/
structure RunResult where
  excelDeleted : Bool
  messages : List String
  auditRows : List (String × String × String)
  outputFile : Option String
deriving Repr, DecidableEq

/-- The per-record progress messages printed by the `main` loop. -/
def perRecordMessages (e : Entry) : List String :=
  (if (print_entry_info e).1 ≠ "" then ["处理记录: " ++ (print_entry_info e).1] else [])
    ++ (if (print_entry_info e).2.1 ≠ ""
        then ["更新后的条目:\n" ++ (print_entry_info e).2.1 ++ "\n"] else [])

/-- `main()`, given the prior existence of the audit spreadsheet and the
entries produced by the external parser. -/
def runMain (excelExists : Bool) (entries : List Entry) : RunResult :=
  if entries ≠ [] then
    { excelDeleted := excelExists
      messages := ("共找到 " ++ toString entries.length ++ " 条文献记录")
          :: (entries.map perRecordMessages).flatten
          ++ ["\n所有更新后的条目已保存到 updated_references.bib"]
      auditRows := entries.map (fun e =>
        ((print_entry_info e).2.2, (print_entry_info e).2.1, (print_entry_info e).1))
      outputFile := some (save_all_updates entries) }
  else
    { excelDeleted := excelExists
      messages := ["未找到任何文献记录"]
      auditRows := []
      outputFile := none }

/-! ## Helper lemmas -/

theorem strExt {s t : String} (h : s.data = t.data) : s = t :=
  congrArg String.mk h

theorem rstripList_closes (l : List Char) :
    rstripList (l ++ ['\x7d', ',', '\n']) = l ++ ['\x7d'] := by
  simp +decide [rstripList, List.reverse_append, List.dropWhile_cons, stripChar]

theorem pyRstrip_closes (s : String) : pyRstrip (s ++ "\x7d" ++ ",\n") = s ++ "\x7d" := by
  apply strExt
  show rstripList (s ++ "\x7d" ++ ",\n").data = (s ++ "\x7d").data
  simp only [String.data_append, List.append_assoc]
  exact rstripList_closes s.data

theorem concatAll_map_sep (sep : String) :
    ∀ l : List String, l ≠ [] →
      concatAll (l.map (fun x => x ++ sep)) = pyJoin sep l ++ sep
  | [], h => absurd rfl h
  | [a], _ => by simp [concatAll, pyJoin, String.append_empty]
  | a :: b :: t, _ => by
      have ih := concatAll_map_sep sep (b :: t) (by simp)
      simp only [List.map_cons, concatAll, pyJoin] at ih ⊢
      rw [ih]
      simp [String.append_assoc]

theorem pyJoin_close (sep : String) :
    ∀ l : List String, l ≠ [] → (∀ x ∈ l, ∃ p, x = p ++ "\x7d") →
      ∃ s, pyJoin sep l = s ++ "\x7d"
  | [], h, _ => absurd rfl h
  | [a], _, hc => by
      obtain ⟨p, hp⟩ := hc a (by simp)
      exact ⟨p, by simpa [pyJoin] using hp⟩
  | a :: b :: t, _, hc => by
      obtain ⟨s, hs⟩ := pyJoin_close sep (b :: t) (by simp)
        (fun x hx => hc x (List.mem_cons_of_mem a hx))
      refine ⟨a ++ sep ++ s, ?_⟩
      simp only [pyJoin, hs, String.append_assoc]

theorem error_record_ne_ok (s : String) : "error: 缺失字段: " ++ s ≠ "ok" := by
  intro h
  have h2 := congrArg String.data h
  rw [String.data_append] at h2
  have hE : "error: 缺失字段: ".data
      = ['e', 'r', 'r', 'o', 'r', ':', ' ', '缺', '失', '字', '段', ':', ' '] := rfl
  have hO : "ok".data = ['o', 'k'] := rfl
  rw [hE, hO] at h2
  simp at h2

theorem warning_record_ne_ok (f : String) :
    "warning: " ++ f ++ "格式错误" ≠ "ok" := by
  intro h
  have h2 := congrArg String.data h
  rw [String.data_append, String.data_append] at h2
  have hW : "warning: ".data = ['w', 'a', 'r', 'n', 'i', 'n', 'g', ':', ' '] := rfl
  have hO : "ok".data = ['o', 'k'] := rfl
  rw [hW, hO] at h2
  simp at h2

theorem demoteIf_of_ne_ok (e : Entry) (r : String) (hr : r ≠ "ok") :
    demoteIf e r = r := by
  simp [demoteIf, hr]

theorem demoteIf_of_known_type (e : Entry) (r : String)
    (h1 : pyLower e.entrytype ≠ "misc") (h2 : pyLower e.entrytype ≠ "www") :
    demoteIf e r = r := by
  simp [demoteIf, h1, h2]

theorem genRecord_of_missing (e : Entry) (fs : List String) (fc : Option FormatCheck)
    (h : missingFields e fs ≠ []) :
    genRecord e fs fc = "error: 缺失字段: " ++ pyJoin ", " (missingFields e fs) := by
  simp [genRecord, h]

theorem genRecord_of_ok (e : Entry) (fs : List String) (fc : Option FormatCheck)
    (h : missingFields e fs = [])
    (hfc : ∀ c, fc = some c → c.eval (bibValue e (checkedField fs)) = true) :
    genRecord e fs fc = "ok" := by
  cases fc with
  | none => simp [genRecord, h]
  | some c => simp [genRecord, h, hfc c rfl]

theorem genRecord_of_badFormat (e : Entry) (fs : List String) (c : FormatCheck)
    (h : missingFields e fs = [])
    (hc : c.eval (bibValue e (checkedField fs)) = false) :
    genRecord e fs (some c) = "warning: " ++ checkedField fs ++ "格式错误" := by
  simp [genRecord, h, hc]

theorem print_eq_rule (e : Entry) (ty : String) (fs : List String)
    (fc : Option FormatCheck) (h : selectRule e = some (ty, fs, fc)) :
    print_entry_info e
      = (demoteIf e (genRecord e fs fc), genUpdate e ty fs, originalRender e) := by
  unfold selectRule at h
  unfold print_entry_info
  by_cases h1 : pyLower e.entrytype = "article"
  · rw [if_pos h1] at h ⊢
    by_cases h2 : arxivBranch e = true
    · rw [if_pos h2] at h ⊢
      simp only [Option.some.injEq, Prod.mk.injEq] at h
      obtain ⟨rfl, rfl, rfl⟩ := h
      rw [demoteIf_of_known_type e _ (by rw [h1]; decide) (by rw [h1]; decide)]
      rfl
    · rw [if_neg h2] at h ⊢
      simp only [Option.some.injEq, Prod.mk.injEq] at h
      obtain ⟨rfl, rfl, rfl⟩ := h
      rw [demoteIf_of_known_type e _ (by rw [h1]; decide) (by rw [h1]; decide)]
      rfl
  · rw [if_neg h1] at h ⊢
    by_cases h3 : pyLower e.entrytype = "inproceedings"
    · rw [if_pos h3] at h ⊢
      simp only [Option.some.injEq, Prod.mk.injEq] at h
      obtain ⟨rfl, rfl, rfl⟩ := h
      rw [demoteIf_of_known_type e _ (by rw [h3]; decide) (by rw [h3]; decide)]
      rfl
    · rw [if_neg h3] at h ⊢
      by_cases h4 : pyLower e.entrytype = "misc" ∨ pyLower e.entrytype = "www"
      · rw [if_pos h4] at h ⊢
        simp only [Option.some.injEq, Prod.mk.injEq] at h
        obtain ⟨rfl, rfl, rfl⟩ := h
        unfold demoteIf
        simp [h4, generate_bibtex]
      · rw [if_neg h4] at h ⊢
        by_cases h5 : pyLower e.entrytype = "book"
        · rw [if_pos h5] at h ⊢
          simp only [Option.some.injEq, Prod.mk.injEq] at h
          obtain ⟨rfl, rfl, rfl⟩ := h
          rw [demoteIf_of_known_type e _ (by rw [h5]; decide) (by rw [h5]; decide)]
          rfl
        · rw [if_neg h5] at h ⊢
          by_cases h6 : pyLower e.entrytype = "techreport"
          · rw [if_pos h6] at h ⊢
            simp only [Option.some.injEq, Prod.mk.injEq] at h
            obtain ⟨rfl, rfl, rfl⟩ := h
            rw [demoteIf_of_known_type e _ (by rw [h6]; decide) (by rw [h6]; decide)]
            rfl
          · rw [if_neg h6] at h
            exact Option.noConfusion h

theorem genUpdate_render (e : Entry) (ty : String) (fs : List String) (h : fs ≠ []) :
    genUpdate e ty fs
      = "@" ++ ty ++ "\x7b" ++ e.id.getD "unnamed" ++ ",\n"
        ++ pyJoin ",\n" (fs.map (fieldCore e)) ++ "\n\x7d" := by
  unfold genUpdate
  rw [show fs.map (fieldLine e) = (fs.map (fieldCore e)).map (fun x => x ++ ",\n") from by
    rw [List.map_map]; rfl]
  rw [concatAll_map_sep ",\n" (fs.map (fieldCore e)) (by simpa using h)]
  obtain ⟨s, hs⟩ := pyJoin_close ",\n" (fs.map (fieldCore e)) (by simpa using h)
    (by
      intro x hx
      obtain ⟨f, -, rfl⟩ := List.mem_map.mp hx
      exact ⟨"\t" ++ ljust f 10 ++ " = \x7b" ++ bibValue e f, rfl⟩)
  rw [hs]
  rw [show "@" ++ ty ++ "\x7b" ++ e.id.getD "unnamed" ++ ",\n" ++ (s ++ "\x7d" ++ ",\n")
      = ("@" ++ ty ++ "\x7b" ++ e.id.getD "unnamed" ++ ",\n" ++ s) ++ "\x7d" ++ ",\n" from by
    simp [String.append_assoc]]
  rw [pyRstrip_closes]
  simp [String.append_assoc]

theorem selectRule_eq_none (e : Entry)
    (h : pyLower e.entrytype
      ∉ ["article", "inproceedings", "misc", "www", "book", "techreport"]) :
    selectRule e = none := by
  simp only [List.mem_cons, List.not_mem_nil, or_false, not_or] at h
  obtain ⟨h1, h2, h3, h4, h5, h6⟩ := h
  unfold selectRule
  rw [if_neg h1, if_neg h2, if_neg (not_or.mpr ⟨h3, h4⟩), if_neg h5, if_neg h6]

theorem selectRule_constraint_head (e : Entry) (ty : String) (fs : List String)
    (c : FormatCheck) (h : selectRule e = some (ty, fs, some c)) :
    checkedField fs = "title" := by
  unfold selectRule at h
  split_ifs at h <;>
    first
      | exact Option.noConfusion h
      | (simp only [Option.some.injEq, Prod.mk.injEq] at h
         obtain ⟨-, rfl, -⟩ := h
         rfl)
      | (simp only [Option.some.injEq, Prod.mk.injEq] at h
         exact Option.noConfusion h.2.2)

theorem selectRule_fields_ne_nil (e : Entry) (ty : String) (fs : List String)
    (fc : Option FormatCheck) (h : selectRule e = some (ty, fs, fc)) :
    fs ≠ [] := by
  unfold selectRule at h
  split_ifs at h <;>
    first
      | exact Option.noConfusion h
      | (simp only [Option.some.injEq, Prod.mk.injEq] at h
         obtain ⟨-, rfl, -⟩ := h
         simp)

theorem print_record (e : Entry) (ty : String) (fs : List String)
    (fc : Option FormatCheck) (h : selectRule e = some (ty, fs, fc)) :
    (print_entry_info e).1 = demoteIf e (genRecord e fs fc) := by
  rw [print_eq_rule e ty fs fc h]

theorem print_update (e : Entry) (ty : String) (fs : List String)
    (fc : Option FormatCheck) (h : selectRule e = some (ty, fs, fc)) :
    (print_entry_info e).2.1 = genUpdate e ty fs := by
  rw [print_eq_rule e ty fs fc h]

theorem print_unknown (e : Entry) (h : selectRule e = none) :
    (print_entry_info e).1 = "error: 未定义bibtex类型" ∧ (print_entry_info e).2.1 = "" := by
  unfold selectRule at h
  unfold print_entry_info
  by_cases h1 : pyLower e.entrytype = "article"
  · rw [if_pos h1] at h
    by_cases h2 : arxivBranch e = true
    · rw [if_pos h2] at h; exact Option.noConfusion h
    · rw [if_neg h2] at h; exact Option.noConfusion h
  · rw [if_neg h1] at h ⊢
    by_cases h3 : pyLower e.entrytype = "inproceedings"
    · rw [if_pos h3] at h; exact Option.noConfusion h
    · rw [if_neg h3] at h ⊢
      by_cases h4 : pyLower e.entrytype = "misc" ∨ pyLower e.entrytype = "www"
      · rw [if_pos h4] at h; exact Option.noConfusion h
      · rw [if_neg h4] at h ⊢
        by_cases h5 : pyLower e.entrytype = "book"
        · rw [if_pos h5] at h; exact Option.noConfusion h
        · rw [if_neg h5] at h ⊢
          by_cases h6 : pyLower e.entrytype = "techreport"
          · rw [if_pos h6] at h; exact Option.noConfusion h
          · rw [if_neg h6]
            exact ⟨rfl, rfl⟩

/-! ## Claims

Outcome strings: the script emits its messages in Chinese; the spec's
`Error("missing fields: ...")`, `Warning("<field> format error")`,
`Warning("misc rewritten to www")` and `Error("undefined type")` denote the
script's strings `"error: 缺失字段: ..."`, `"warning: <field>格式错误"`,
`"warning: misc改www"` and `"error: 未定义bibtex类型"` respectively. -/

/-- An `inproceedings` record with all five required fields present and
non-empty, `pages = "1-20"`, and a title without a parenthesized suffix. -/
def inprocPages : Entry :=
  { entrytype := "inproceedings", id := some "smith2020",
    fields := [("title", "A Study"), ("author", "Smith, J."),
               ("booktitle", "Proc of X"), ("year", "2020"), ("pages", "1-20")] }

/-- C1, counterexample: the spec's example record (an `inproceedings` entry
with all five required fields present and `pages = "1-20"`) does NOT produce
the warning naming `pages`: the code applies the format constraint to
`required_fields[0]` (`title`), so the outcome is the warning naming
`title`. -/
theorem claim1_counterexample :
    missingFields inprocPages ["title", "author", "booktitle", "year", "pages"] = []
      ∧ getField inprocPages "pages" = some "1-20"
      ∧ (print_entry_info inprocPages).1 = "warning: title格式错误"
      ∧ (print_entry_info inprocPages).1 ≠ "warning: pages格式错误" := by
  refine ⟨rfl, rfl, rfl, by decide⟩

/-- C1, amended: for every record whose selected rule declares a format
constraint and whose required fields are all present and non-empty, the
constraint is tested against the FIRST required field's raw value — `title`
for all three constrained rules — and on mismatch the warning names that
field, so it always reads "title格式错误" ("title format error"), never
naming `pages`. -/
theorem claim1_format_warning_names_title (e : Entry) (ty : String)
    (fs : List String) (c : FormatCheck)
    (h : selectRule e = some (ty, fs, some c))
    (hm : missingFields e fs = [])
    (hc : c.eval (bibValue e (checkedField fs)) = false) :
    checkedField fs = "title"
      ∧ (print_entry_info e).1 = "warning: title格式错误" := by
  have ht := selectRule_constraint_head e ty fs c h
  refine ⟨ht, ?_⟩
  rw [print_record e ty fs (some c) h, genRecord_of_badFormat e fs c hm hc, ht,
    demoteIf_of_ne_ok e _ (warning_record_ne_ok "title")]
  rfl

/-- C1, witness for the amended claim at the spec's own example record. -/
theorem claim1_witness :
    missingFields inprocPages ["title", "author", "booktitle", "year", "pages"] = []
      ∧ FormatCheck.parenSuffix.eval
          (bibValue inprocPages
            (checkedField ["title", "author", "booktitle", "year", "pages"])) = false
      ∧ (print_entry_info inprocPages).1 = "warning: title格式错误" :=
  ⟨rfl, rfl,
    (claim1_format_warning_names_title inprocPages "inproceedings"
      ["title", "author", "booktitle", "year", "pages"] FormatCheck.parenSuffix
      rfl rfl rfl).2⟩

/-- C2: every record of a known type tag, not `misc`/`www`, with all
required fields present and non-empty, that passes the declared format
constraint (as the code applies it, to `required_fields[0]`) evaluates to
the Ok outcome. -/
theorem claim2_all_present_ok (e : Entry) (ty : String) (fs : List String)
    (fc : Option FormatCheck) (h : selectRule e = some (ty, fs, fc))
    (hmisc : pyLower e.entrytype ≠ "misc") (hwww : pyLower e.entrytype ≠ "www")
    (hm : missingFields e fs = [])
    (hfc : ∀ c, fc = some c → c.eval (bibValue e (checkedField fs)) = true) :
    (print_entry_info e).1 = "ok" := by
  rw [print_record e ty fs fc h, genRecord_of_ok e fs fc hm hfc,
    demoteIf_of_known_type e _ hmisc hwww]

/-- An `inproceedings` record whose title carries a parenthesized suffix,
so the parenthesized-suffix constraint passes. -/
def inprocOk : Entry :=
  { entrytype := "inproceedings", id := some "lee2021",
    fields := [("title", "A Study (Extended)"), ("author", "Lee, K."),
               ("booktitle", "Proc of Y"), ("year", "2021"), ("pages", "1-20")] }

/-- C2, witness: an `inproceedings` record with all fields present and a
passing format check yields the `ok` record. -/
theorem claim2_witness :
    missingFields inprocOk ["title", "author", "booktitle", "year", "pages"] = []
      ∧ FormatCheck.parenSuffix.eval
          (bibValue inprocOk
            (checkedField ["title", "author", "booktitle", "year", "pages"])) = true
      ∧ (print_entry_info inprocOk).1 = "ok" :=
  ⟨rfl, rfl,
    claim2_all_present_ok inprocOk "inproceedings"
      ["title", "author", "booktitle", "year", "pages"] (some FormatCheck.parenSuffix)
      rfl (by decide) (by decide) rfl
      (fun c hc => by injection hc with h2; rw [← h2]; rfl)⟩

/-- C3: every record of a known type tag with at least one required field
absent or empty yields the missing-fields Error naming exactly the missing
required fields, joined with ", " in the rule's field order, regardless of
any format constraint (no hypothesis about the constraint is needed, so the
Error takes precedence even when the format check would also fail). -/
theorem claim3_missing_fields_error (e : Entry) (ty : String) (fs : List String)
    (fc : Option FormatCheck) (h : selectRule e = some (ty, fs, fc))
    (hm : missingFields e fs ≠ []) :
    (print_entry_info e).1
      = "error: 缺失字段: " ++ pyJoin ", " (missingFields e fs) := by
  rw [print_record e ty fs fc h, genRecord_of_missing e fs fc hm,
    demoteIf_of_ne_ok e _ (error_record_ne_ok _)]

/-- An `inproceedings` record missing `pages`, whose title would also fail
the format constraint. -/
def inprocMissing : Entry :=
  { entrytype := "inproceedings", id := some "wu2019",
    fields := [("title", "No Parens Here"), ("author", "Wu, Q."),
               ("booktitle", "Proc of Z"), ("year", "2019")] }

/-- C3, witness: `pages` missing and the format check failing still yields
the missing-fields Error, showing its precedence. -/
theorem claim3_witness :
    missingFields inprocMissing ["title", "author", "booktitle", "year", "pages"]
        = ["pages"]
      ∧ FormatCheck.parenSuffix.eval
          (bibValue inprocMissing
            (checkedField ["title", "author", "booktitle", "year", "pages"])) = false
      ∧ (print_entry_info inprocMissing).1 = "error: 缺失字段: pages" :=
  ⟨rfl, rfl, by
    rw [claim3_missing_fields_error inprocMissing "inproceedings"
      ["title", "author", "booktitle", "year", "pages"] (some FormatCheck.parenSuffix)
      rfl (by decide)]
    rfl⟩

/-- C4: for every record of a known type tag, whatever the outcome, the
canonical rendering is the type header line followed by exactly one line per
required field in the rule's order (`fieldCore`, i.e. `field = {value}` with
`bibValue` substituting the literal `null` for an absent field), separated
by `",\n"` with no separator after the last field line, then the closing
brace. -/
theorem claim4_canonical_rendering (e : Entry) (ty : String) (fs : List String)
    (fc : Option FormatCheck) (h : selectRule e = some (ty, fs, fc)) :
    (print_entry_info e).2.1
      = "@" ++ ty ++ "\x7b" ++ e.id.getD "unnamed" ++ ",\n"
        ++ pyJoin ",\n" (fs.map (fieldCore e)) ++ "\n\x7d" := by
  rw [print_update e ty fs fc h,
    genUpdate_render e ty fs (selectRule_fields_ne_nil e ty fs fc h)]

/-- A `book` record with `address` and `edition` entirely absent. -/
def bookMissing : Entry :=
  { entrytype := "book", id := some "kay1996",
    fields := [("author", "Kay, A."), ("title", "On Books"),
               ("publisher", "Pub"), ("year", "1996")] }

/-- C4, witness: a `book` record with two absent fields still renders all
six lines, the absent ones as `null`, with no trailing separator, even
though the outcome is an Error. -/
theorem claim4_witness :
    getField bookMissing "address" = none
      ∧ (print_entry_info bookMissing).1 = "error: 缺失字段: address, edition"
      ∧ (print_entry_info bookMissing).2.1
        = "@book\x7bkay1996,\n\tauthor     = \x7bKay, A.\x7d,\n\ttitle      = \x7bOn Books\x7d,\n\tpublisher  = \x7bPub\x7d,\n\tyear       = \x7b1996\x7d,\n\taddress    = \x7bnull\x7d,\n\tedition    = \x7bnull\x7d\n\x7d" :=
  ⟨rfl, rfl, by
    rw [claim4_canonical_rendering bookMissing "book"
      ["author", "title", "publisher", "year", "address", "edition"] none rfl]
    rfl⟩

/-- C5: every record whose type tag lower-cases to `misc` or `www`, with all
four required fields present and non-empty, is demoted from Ok to the
warning "misc改www" ("misc rewritten to www"), and its canonical record is
tagged `www`. -/
theorem claim5_misc_demoted (e : Entry)
    (h : pyLower e.entrytype = "misc" ∨ pyLower e.entrytype = "www")
    (hm : missingFields e ["author", "year", "title", "url"] = []) :
    (print_entry_info e).1 = "warning: misc改www"
      ∧ ∃ s, (print_entry_info e).2.1 = "@www\x7b" ++ s := by
  have h1 : pyLower e.entrytype ≠ "article" := by
    rcases h with h | h <;> rw [h] <;> decide
  have h3 : pyLower e.entrytype ≠ "inproceedings" := by
    rcases h with h | h <;> rw [h] <;> decide
  have hrule : selectRule e = some ("www", ["author", "year", "title", "url"], none) := by
    unfold selectRule
    rw [if_neg h1, if_neg h3, if_pos h]
  constructor
  · rw [print_record e _ _ _ hrule,
      genRecord_of_ok e _ none hm (fun c hc => Option.noConfusion hc)]
    unfold demoteIf
    rw [if_pos ⟨h, rfl⟩]
  · rw [print_update e _ _ _ hrule, genUpdate_render e "www" _ (by simp)]
    refine ⟨e.id.getD "unnamed"
      ++ (",\n" ++ (pyJoin ",\n" (["author", "year", "title", "url"].map (fieldCore e))
        ++ "\n\x7d")), ?_⟩
    rw [show ("@www\x7b" : String) = "@" ++ "www" ++ "\x7b" from rfl]
    simp [String.append_assoc]

/-- A `misc` record with all four required fields present. -/
def miscEntry : Entry :=
  { entrytype := "misc", id := some "web1",
    fields := [("author", "Doe, J."), ("year", "2022"), ("title", "Site"),
               ("url", "https://x.y")] }

/-- C5, witness. -/
theorem claim5_witness :
    (pyLower miscEntry.entrytype = "misc" ∨ pyLower miscEntry.entrytype = "www")
      ∧ (print_entry_info miscEntry).1 = "warning: misc改www"
      ∧ ∃ s, (print_entry_info miscEntry).2.1 = "@www\x7b" ++ s :=
  ⟨Or.inl rfl, (claim5_misc_demoted miscEntry (Or.inl rfl) rfl).1,
    (claim5_misc_demoted miscEntry (Or.inl rfl) rfl).2⟩

/-- An `article` record whose `journal` value matches the arXiv pattern
exactly, but whose title does not. -/
def arxivGoodJournal : Entry :=
  { entrytype := "article", id := some "vaswani2017",
    fields := [("title", "Attention Is All You Need"), ("author", "Vaswani, A."),
               ("year", "2017"), ("journal", "arXiv preprint arXiv:1706.03762")] }

/-- C6, counterexample: the short arXiv rule is selected and the `journal`
value matches the declared pattern, yet the outcome is a format warning
naming `title` — the rule's constraint is evaluated against
`required_fields[0]` (`title`), so it does not require the `journal` value
to match. -/
theorem claim6_counterexample :
    selectRule arxivGoodJournal
        = some ("article", ["title", "author", "year", "journal"],
            some FormatCheck.arxiv)
      ∧ FormatCheck.arxiv.eval
          ((getField arxivGoodJournal "journal").getD "") = true
      ∧ (print_entry_info arxivGoodJournal).1 = "warning: title格式错误" :=
  ⟨rfl, rfl, rfl⟩

/-- C6, amended: for every `article` record whose `journal` value contains
"arxiv" case-insensitively, the selected required-field set is the 4-field
short form (never the 7-field full form) with the arXiv pattern as its
constraint; but that constraint is evaluated against the first required
field (`title`), not against `journal`. -/
theorem claim6_arxiv_short_form (e : Entry) (j : String)
    (hty : pyLower e.entrytype = "article")
    (hj : getField e "journal" = some j)
    (hx : pyIn "arxiv" (pyLower j) = true) :
    selectRule e
        = some ("article", ["title", "author", "year", "journal"],
            some FormatCheck.arxiv)
      ∧ (missingFields e ["title", "author", "year", "journal"] = [] →
          (print_entry_info e).1
            = if FormatCheck.arxiv.eval (bibValue e "title") = true then "ok"
              else "warning: title格式错误") := by
  have hbr : arxivBranch e = true := by
    unfold arxivBranch
    rw [hj]
    simpa using hx
  have hrule : selectRule e
      = some ("article", ["title", "author", "year", "journal"],
          some FormatCheck.arxiv) := by
    unfold selectRule
    rw [if_pos hty, if_pos hbr]
  refine ⟨hrule, fun hm => ?_⟩
  rw [print_record e _ _ _ hrule]
  by_cases hev : FormatCheck.arxiv.eval (bibValue e "title") = true
  · rw [if_pos hev,
      genRecord_of_ok e _ _ hm (fun c hc => by injection hc with h2; rw [← h2]; exact hev),
      demoteIf_of_known_type e _ (by rw [hty]; decide) (by rw [hty]; decide)]
  · rw [if_neg hev,
      genRecord_of_badFormat e _ FormatCheck.arxiv hm (Bool.eq_false_iff.mpr hev),
      demoteIf_of_ne_ok e _ (warning_record_ne_ok _)]
    rfl

/-- An `article` record with mixed-case type tag and journal containing
"ARXIV", whose title happens to match the arXiv pattern. -/
def arxivCased : Entry :=
  { entrytype := "Article", id := none,
    fields := [("title", "arXiv preprint arXiv:9999.11111"), ("author", "A"),
               ("year", "2024"), ("journal", "ARXIV preprints")] }

/-- C6, witness: the short form is selected for a case-varied journal, and
the outcome tracks the `title` value's match against the arXiv pattern. -/
theorem claim6_witness :
    pyLower arxivCased.entrytype = "article"
      ∧ getField arxivCased "journal" = some "ARXIV preprints"
      ∧ pyIn "arxiv" (pyLower "ARXIV preprints") = true
      ∧ selectRule arxivCased
          = some ("article", ["title", "author", "year", "journal"],
              some FormatCheck.arxiv)
      ∧ (print_entry_info arxivCased).1 = "ok" :=
  ⟨rfl, rfl, rfl,
    (claim6_arxiv_short_form arxivCased "ARXIV preprints" rfl rfl rfl).1,
    by rw [(claim6_arxiv_short_form arxivCased "ARXIV preprints" rfl rfl rfl).2 rfl]; rfl⟩

/-- C7: every record whose lower-cased type tag is none of the six known
tags evaluates to the undefined-type Error with an empty canonical record
(`print_entry_info` is total, so no crash). -/
theorem claim7_undefined_type (e : Entry)
    (h : pyLower e.entrytype
      ∉ ["article", "inproceedings", "misc", "www", "book", "techreport"]) :
    (print_entry_info e).1 = "error: 未定义bibtex类型"
      ∧ (print_entry_info e).2.1 = "" :=
  print_unknown e (selectRule_eq_none e h)

/-- A record with an unknown type tag. -/
def phdEntry : Entry :=
  { entrytype := "phdthesis", id := some "p1", fields := [("title", "T")] }

/-- C7, witness. -/
theorem claim7_witness :
    pyLower phdEntry.entrytype
        ∉ ["article", "inproceedings", "misc", "www", "book", "techreport"]
      ∧ (print_entry_info phdEntry).1 = "error: 未定义bibtex类型"
      ∧ (print_entry_info phdEntry).2.1 = "" :=
  ⟨by decide, (claim7_undefined_type phdEntry (by decide)).1,
    (claim7_undefined_type phdEntry (by decide)).2⟩

/-- C8: when the parser yields zero records, `main` prints only "no records
found" (未找到任何文献记录), appends no audit rows, and never writes the
consolidated output file, whether or not a prior audit spreadsheet existed. -/
theorem claim8_no_records :
    ((runMain true []).messages = ["未找到任何文献记录"]
        ∧ (runMain true []).auditRows = []
        ∧ (runMain true []).outputFile = none)
      ∧ ((runMain false []).messages = ["未找到任何文献记录"]
        ∧ (runMain false []).auditRows = []
        ∧ (runMain false []).outputFile = none) :=
  ⟨⟨rfl, rfl, rfl⟩, ⟨rfl, rfl, rfl⟩⟩

/-- C9: a required field present with an empty-string value is counted
missing (so it appears in the missing-fields Error), yet its canonical value
is the empty string — rendering `field = {}` — not the `null` placeholder,
which is substituted only when the key is entirely absent. -/
theorem claim9_empty_vs_absent (e : Entry) (ty : String) (fs : List String)
    (fc : Option FormatCheck) (f : String)
    (h : selectRule e = some (ty, fs, fc)) (hf : f ∈ fs)
    (he : getField e f = some "") :
    f ∈ missingFields e fs
      ∧ (print_entry_info e).1
          = "error: 缺失字段: " ++ pyJoin ", " (missingFields e fs)
      ∧ bibValue e f = ""
      ∧ (∀ g, getField e g = none → bibValue e g = "null") := by
  have hmem : f ∈ missingFields e fs := by
    unfold missingFields
    rw [List.mem_filter]
    exact ⟨hf, by rw [he]; rfl⟩
  have hne : missingFields e fs ≠ [] := fun hh => by
    rw [hh] at hmem
    exact List.not_mem_nil f hmem
  refine ⟨hmem, ?_, ?_, ?_⟩
  · rw [print_record e ty fs fc h, genRecord_of_missing e fs fc hne,
      demoteIf_of_ne_ok e _ (error_record_ne_ok _)]
  · unfold bibValue
    rw [he]
    rfl
  · intro g hg
    unfold bibValue
    rw [hg]
    rfl

/-- A `book` record whose `edition` field is present but empty. -/
def bookEmptyEdition : Entry :=
  { entrytype := "book", id := some "k3",
    fields := [("author", "A"), ("title", "T"), ("publisher", "P"),
               ("year", "1990"), ("address", "Ad"), ("edition", "")] }

/-- C9, witness: the empty `edition` is reported missing but rendered as
`edition = {}`, not `edition = {null}`. -/
theorem claim9_witness :
    getField bookEmptyEdition "edition" = some ""
      ∧ (print_entry_info bookEmptyEdition).1 = "error: 缺失字段: edition"
      ∧ bibValue bookEmptyEdition "edition" = ""
      ∧ (print_entry_info bookEmptyEdition).2.1
        = "@book\x7bk3,\n\tauthor     = \x7bA\x7d,\n\ttitle      = \x7bT\x7d,\n\tpublisher  = \x7bP\x7d,\n\tyear       = \x7b1990\x7d,\n\taddress    = \x7bAd\x7d,\n\tedition    = \x7b\x7d\n\x7d" :=
  ⟨rfl,
    by
      rw [(claim9_empty_vs_absent bookEmptyEdition "book"
        ["author", "title", "publisher", "year", "address", "edition"] none
        "edition" rfl (by decide) rfl).2.1]
      rfl,
    (claim9_empty_vs_absent bookEmptyEdition "book"
      ["author", "title", "publisher", "year", "address", "edition"] none
      "edition" rfl (by decide) rfl).2.2.1,
    rfl⟩

/-- C10: a record with an unknown type tag contributes nothing to the
consolidated output — neither a rendering nor a blank-line separator — so
deleting it from the batch leaves `save_all_updates` unchanged. -/
theorem claim10_unknown_omitted (pre post : List Entry) (e : Entry)
    (h : pyLower e.entrytype
      ∉ ["article", "inproceedings", "misc", "www", "book", "techreport"]) :
    save_all_updates (pre ++ e :: post) = save_all_updates (pre ++ post) := by
  have hupd : updContribution e = "" := by
    have h2 := (print_unknown e (selectRule_eq_none e h)).2
    simp [updContribution, h2]
  induction pre with
  | nil =>
      show updContribution e ++ save_all_updates post = save_all_updates post
      rw [hupd, String.empty_append]
  | cons a t ih =>
      show updContribution a ++ save_all_updates (t ++ e :: post)
        = updContribution a ++ save_all_updates (t ++ post)
      rw [ih]

/-- A valid `techreport` record. -/
def reportEntry : Entry :=
  { entrytype := "techreport", id := some "t1",
    fields := [("author", "A"), ("title", "T"), ("institution", "I"),
               ("year", "2000"), ("address", "Addr")] }

/-- A record of unknown type `webpage`. -/
def webpageEntry : Entry :=
  { entrytype := "webpage", id := none, fields := [] }

/-- C10, witness: the batch output of [known, unknown] equals that of
[known] alone. -/
theorem claim10_witness :
    pyLower webpageEntry.entrytype
        ∉ ["article", "inproceedings", "misc", "www", "book", "techreport"]
      ∧ save_all_updates [reportEntry, webpageEntry] = save_all_updates [reportEntry] :=
  ⟨by decide,
    claim10_unknown_omitted [reportEntry] [] webpageEntry (by decide)⟩

end ZeroPrism
